import Mathlib

set_option maxRecDepth 100000

/-! Formal model of the SSD1322 display driver (`src/display.rs`):
the packed framebuffer store, the dirty-rectangle (bounding box) tracker,
and the full/partial flush paths, together with proofs of the specified
properties. -/

/-- `DISPLAY_WIDTH` constant from src/display.rs line 12. -/
def DISPLAY_WIDTH : Nat := 256

/-- `DISPLAY_HEIGHT` constant from src/display.rs line 13. -/
def DISPLAY_HEIGHT : Nat := 64

/-- `BUFFER_SIZE` constant from src/display.rs line 14. -/
def BUFFER_SIZE : Nat := DISPLAY_WIDTH * DISPLAY_HEIGHT / 2

/-- Modelled from the spec: the 4-bit grayscale color (`Gray4` of the external
embedded-graphics crate, §3 "Color: 4-bit grayscale luma (0-15)").  The type
guarantees `luma < 16`, as the Rust `Gray4` does. -/
structure Gray4 where
  luma : Nat
  luma_lt : luma < 16

/-- Modelled from the spec: the `Gray4` constructor masks the intensity to
4 bits, so `luma` is always in `0..=15`. -/
def Gray4.new (l : Nat) : Gray4 := ⟨l % 16, Nat.mod_lt l (by omega)⟩

/-- Modelled from the spec: the display commands that the flush paths issue
(`crate::command::Command`, whose file is not under src/; §6 "send command
(an opcode plus optional small parameter bytes)").  Only the three commands
used by `flush`/`flush_changed` are needed. -/
inductive Command where
  | SetColumnAddress : Nat → Nat → Command
  | SetRowAddress : Nat → Nat → Command
  | WriteRAM : Command
  deriving DecidableEq

/-- Modelled from the spec: a single successful transport call, either a
command (`send_command`) or a raw data payload (`display.send_data`),
§6 "two operations — send command ... and send data payload". -/
inductive Event where
  | cmd : Command → Event
  | data : List Nat → Event
  deriving DecidableEq

/-- The `Ssd1322<DI>` driver state (src/display.rs lines 19-23).

The `display: DI` collaborator field is modelled freely by the list of
`update_box (x, y)` calls it has received: `draw_iter` (line 180) invokes
`self.display.update_box(x as u8, y as u8)` under the trait bound
`DI: BoundingBox`, and an arbitrary `DI` is characterised exactly by the
sequence of such calls delivered to it.  `buffer` holds the packed bytes
(`[u8; BUFFER_SIZE]`), and `bounding_box` is the driver's own
`Option<([u8; 2], [u8; 2])>` dirty rectangle. -/
structure Ssd1322 where
  display : List (Nat × Nat)
  buffer : List Nat
  bounding_box : Option ((Nat × Nat) × (Nat × Nat))

/-- `Ssd1322::new` (src/display.rs lines 35-41): stores the given display
collaborator, a zeroed buffer, and no bounding box. -/
def Ssd1322.new (display : List (Nat × Nat)) : Ssd1322 :=
  { display := display, buffer := List.replicate BUFFER_SIZE 0, bounding_box := none }

/-- `update_upper_nibble` (src/display.rs lines 208-210):
`((color << 4) & 0xF0) | (input & 0x0F)`. -/
def update_upper_nibble (input : Nat) (color : Nat) : Nat :=
  ((color <<< 4) &&& 0xF0) ||| (input &&& 0x0F)

/-- `update_lower_nibble` (src/display.rs lines 213-215):
`color & 0x0F | (input & 0xF0)`. -/
def update_lower_nibble (input : Nat) (color : Nat) : Nat :=
  (color &&& 0x0F) ||| (input &&& 0xF0)

/-- The bounding-box merge performed by `<Ssd1322 as BoundingBox>::update_box`
(src/display.rs lines 130-154), as a function of the current
`bounding_box` field value. -/
def boxMerge : Option ((Nat × Nat) × (Nat × Nat)) → Nat → Nat →
    Option ((Nat × Nat) × (Nat × Nat))
  | some (col_addr, row_addr), x, y =>
      let new_col_addr :=
        if x / 2 < col_addr.1 then (x / 2, col_addr.2)
        else if col_addr.2 < x / 2 then (col_addr.1, x / 2)
        else col_addr
      let new_row_addr :=
        if y < row_addr.1 then (y, row_addr.2)
        else if row_addr.2 < y then (row_addr.1, y)
        else row_addr
      some (new_col_addr, new_row_addr)
  | none, x, y => some ((x / 2, x / 2), (y, y))

/-- `<Ssd1322 as BoundingBox>::update_box` acting on the driver state:
it rewrites the `bounding_box` field with the merged rectangle. -/
def Ssd1322.update_box (s : Ssd1322) (x y : Nat) : Ssd1322 :=
  { s with bounding_box := boxMerge s.bounding_box x y }

/-- The `as usize` cast of an `i32` pixel coordinate (src/display.rs line 169)
on a 64-bit target: two's-complement reduction modulo `2 ^ 64`. -/
def i32_as_usize (x : Int) : Nat := (x % (2 ^ 64)).toNat

/-- One iteration of the `draw_iter` loop body (src/display.rs lines 165-184):
bounds-check the coordinate, compute the byte index and the candidate byte,
and, only if the candidate differs from the current byte, report the touch to
`self.display` and store the candidate. -/
def draw_pixel (s : Ssd1322) (coord : Int × Int) (color : Gray4) : Ssd1322 :=
  let x := i32_as_usize coord.1
  let y := i32_as_usize coord.2
  if x ≤ 255 ∧ y ≤ 63 then
    let index := x / 2 + y * (DISPLAY_WIDTH / 2)
    let new_val : Nat :=
      if x % 2 = 0 then update_upper_nibble (s.buffer.getD index 0) color.luma
      else update_lower_nibble (s.buffer.getD index 0) color.luma
    if new_val ≠ s.buffer.getD index 0 then
      { s with
        display := s.display ++ [(x % 256, y % 256)],
        buffer := s.buffer.set index new_val }
    else s
  else s

/-- `<Ssd1322 as DrawTarget>::draw_iter` (src/display.rs lines 161-187):
folds the loop body over the pixel sequence.  The Rust error type is
`Infallible`, so the function is total and returns only the new state. -/
def draw_iter (s : Ssd1322) (pixels : List ((Int × Int) × Gray4)) : Ssd1322 :=
  pixels.foldl (fun st p => draw_pixel st p.1 p.2) s

/-- `<Ssd1322 as DrawTarget>::clear` (src/display.rs lines 189-195):
fill every byte of the buffer with `(luma << 4) | luma`.  Infallible. -/
def Ssd1322.clear (s : Ssd1322) (fill : Gray4) : Ssd1322 :=
  { s with buffer := List.replicate s.buffer.length ((fill.luma <<< 4) ||| fill.luma) }

/-- Modelled from the spec: one transport call (§6).  The oracle `okAt`
decides whether the n-th transport call of the current flush succeeds.  On
success the event is appended to the trace of sent events; on failure the
opaque bus error is returned (carrying the trace sent so far, so that early
termination is observable). -/
def send (okAt : Nat → Bool) (e : Event) (tx : Nat × List Event) :
    Except (List Event) (Nat × List Event) :=
  if okAt tx.1 then Except.ok (tx.1 + 1, tx.2 ++ [e]) else Except.error tx.2

/-- The contiguous byte window of one row sent by `flush_changed`
(src/display.rs lines 118-121): `num` bytes starting at
`col0 + i * (DISPLAY_WIDTH / 2)`. -/
def rowSlice (buffer : List Nat) (col0 num i : Nat) : List Nat :=
  (buffer.drop (col0 + i * (DISPLAY_WIDTH / 2))).take num

/-- The row loop of `flush_changed` (src/display.rs lines 117-122): starting
at row `i`, send `count` row windows, stopping at the first transport
failure (the `?` operator). -/
def sendRows (okAt : Nat → Bool) (buffer : List Nat) (col0 num : Nat) :
    Nat → Nat → Nat × List Event → Except (List Event) (Nat × List Event)
  | _, 0, tx => Except.ok tx
  | i, Nat.succ k, tx =>
      match send okAt (Event.data (rowSlice buffer col0 num i)) tx with
      | Except.ok tx2 => sendRows okAt buffer col0 num (i + 1) k tx2
      | Except.error tr => Except.error tr

/-- The outcome of a flush method: the Rust `Result<(), DisplayError>` (as
`ok`), the trace of transport calls that succeeded, and the driver state
after the call. -/
structure FlushOut where
  ok : Bool
  trace : List Event
  state : Ssd1322

/-- `Ssd1322::flush` (src/display.rs lines 97-102): full-extent column and
row addressing, `WriteRAM`, then the whole buffer as one payload; every `?`
propagates the first transport failure. -/
def flush (okAt : Nat → Bool) (s : Ssd1322) : FlushOut :=
  match send okAt (Event.cmd (Command.SetColumnAddress 0x1C 0x5B)) (0, []) with
  | Except.error tr => ⟨false, tr, s⟩
  | Except.ok tx =>
  match send okAt (Event.cmd (Command.SetRowAddress 0x00 0x3F)) tx with
  | Except.error tr => ⟨false, tr, s⟩
  | Except.ok tx =>
  match send okAt (Event.cmd Command.WriteRAM) tx with
  | Except.error tr => ⟨false, tr, s⟩
  | Except.ok tx =>
  match send okAt (Event.data s.buffer) tx with
  | Except.error tr => ⟨false, tr, s⟩
  | Except.ok tx => ⟨true, tx.2, s⟩

/-- `Ssd1322::flush_changed` (src/display.rs lines 105-126): if no bounding
box is present, succeed without any transport call; otherwise issue the
translated column addressing (`col / 2 + 0x1C`), the verbatim row
addressing, `WriteRAM`, and then one payload per row of the tracked window.
The source never assigns `self.bounding_box` here, so the state is returned
unchanged on every path. -/
def flush_changed (okAt : Nat → Bool) (s : Ssd1322) : FlushOut :=
  match s.bounding_box with
  | none => ⟨true, [], s⟩
  | some (col_addr, row_addr) =>
    let num_col_bytes := col_addr.2 - col_addr.1 + 1
    match send okAt
        (Event.cmd (Command.SetColumnAddress (col_addr.1 / 2 + 0x1C) (col_addr.2 / 2 + 0x1C)))
        (0, []) with
    | Except.error tr => ⟨false, tr, s⟩
    | Except.ok tx =>
    match send okAt (Event.cmd (Command.SetRowAddress row_addr.1 row_addr.2)) tx with
    | Except.error tr => ⟨false, tr, s⟩
    | Except.ok tx =>
    match send okAt (Event.cmd Command.WriteRAM) tx with
    | Except.error tr => ⟨false, tr, s⟩
    | Except.ok tx =>
    match sendRows okAt s.buffer col_addr.1 num_col_bytes
        row_addr.1 (row_addr.2 + 1 - row_addr.1) tx with
    | Except.error tr => ⟨false, tr, s⟩
    | Except.ok tx => ⟨true, tx.2, s⟩

/-- Well-formedness of a driver state: the buffer has the fixed length
`BUFFER_SIZE` and every entry is a byte.  This is the invariant that the
Rust type `[u8; BUFFER_SIZE]` provides for free. -/
def WF (s : Ssd1322) : Prop :=
  s.buffer.length = BUFFER_SIZE ∧ ∀ b ∈ s.buffer, b < 256

/-- Well-formedness of the tracked rectangle: both inclusive ranges are
ordered. -/
def bbWF : Option ((Nat × Nat) × (Nat × Nat)) → Prop
  | none => True
  | some (col_addr, row_addr) => col_addr.1 ≤ col_addr.2 ∧ row_addr.1 ≤ row_addr.2

/-- The tracker's rectangle after a sequence of `update_box` touch calls
applied to a fresh driver (whose tracker starts absent). -/
def touches (ts : List (Nat × Nat)) : Option ((Nat × Nat) × (Nat × Nat)) :=
  (ts.foldl (fun st t => st.update_box t.1 t.2) (Ssd1322.new [])).bounding_box

/-- The four transport events of a fully successful `Ssd1322::flush`. -/
def fullFlushTrace (s : Ssd1322) : List Event :=
  [Event.cmd (Command.SetColumnAddress 0x1C 0x5B),
   Event.cmd (Command.SetRowAddress 0x00 0x3F),
   Event.cmd Command.WriteRAM,
   Event.data s.buffer]

/-- The spec §8 scenario pixel sequence: (0,0) luma 5, then (1,0) luma 3. -/
def scenarioPixels : List ((Int × Int) × Gray4) :=
  [((0, 0), Gray4.new 5), ((1, 0), Gray4.new 3)]

/-- A driver state whose tracker holds the single-byte rectangle at the
origin, over a zeroed buffer. -/
def dirtyZero : Ssd1322 :=
  { display := [], buffer := List.replicate BUFFER_SIZE 0,
    bounding_box := some ((0, 0), (0, 0)) }

/-! Helper lemmas. -/

/-- Arithmetic facts about the two nibble-update functions on bytes:
the targeted nibble becomes exactly the 4-bit color, the neighboring nibble
is untouched, and the result is again a byte. -/
theorem nibble_facts :
    ∀ b, b < 256 → ∀ l, l < 16 →
      update_upper_nibble b l / 16 = l ∧
      update_upper_nibble b l % 16 = b % 16 ∧
      update_lower_nibble b l % 16 = l ∧
      update_lower_nibble b l / 16 = b / 16 ∧
      update_upper_nibble b l < 256 ∧
      update_lower_nibble b l < 256 := by
  decide

/-- The `as usize` cast is the identity on in-range natural coordinates. -/
theorem i32_as_usize_natCast (n : Nat) (h : n < 2 ^ 64) : i32_as_usize (n : Int) = n := by
  unfold i32_as_usize
  omega

/-- Unfolding of `draw_pixel` at an in-bounds natural coordinate. -/
theorem draw_pixel_in_bounds (s : Ssd1322) (x y : Nat) (c : Gray4)
    (hx : x < 256) (hy : y < 64) :
    draw_pixel s ((x : Int), (y : Int)) c =
      (if (if x % 2 = 0 then
             update_upper_nibble (s.buffer.getD (x / 2 + y * (DISPLAY_WIDTH / 2)) 0) c.luma
           else
             update_lower_nibble (s.buffer.getD (x / 2 + y * (DISPLAY_WIDTH / 2)) 0) c.luma)
          = s.buffer.getD (x / 2 + y * (DISPLAY_WIDTH / 2)) 0
       then s
       else { s with
              display := s.display ++ [(x % 256, y % 256)],
              buffer := s.buffer.set (x / 2 + y * (DISPLAY_WIDTH / 2))
                (if x % 2 = 0 then
                   update_upper_nibble (s.buffer.getD (x / 2 + y * (DISPLAY_WIDTH / 2)) 0) c.luma
                 else
                   update_lower_nibble (s.buffer.getD (x / 2 + y * (DISPLAY_WIDTH / 2)) 0) c.luma) }) := by
  simp only [draw_pixel, i32_as_usize_natCast x (by omega), i32_as_usize_natCast y (by omega)]
  rw [if_pos ⟨by omega, by omega⟩]
  by_cases hc :
      (if x % 2 = 0 then
         update_upper_nibble (s.buffer.getD (x / 2 + y * (DISPLAY_WIDTH / 2)) 0) c.luma
       else
         update_lower_nibble (s.buffer.getD (x / 2 + y * (DISPLAY_WIDTH / 2)) 0) c.luma)
        = s.buffer.getD (x / 2 + y * (DISPLAY_WIDTH / 2)) 0 <;>
    simp [hc]

/-- `draw_pixel` does nothing when the cast coordinate fails the bounds
check. -/
theorem draw_pixel_out_of_bounds (s : Ssd1322) (coord : Int × Int) (c : Gray4)
    (h : ¬(i32_as_usize coord.1 ≤ 255 ∧ i32_as_usize coord.2 ≤ 63)) :
    draw_pixel s coord c = s := by
  simp only [draw_pixel]
  rw [if_neg h]

/-- `draw_pixel` never modifies the driver's own `bounding_box` field:
the touch report goes to the `display` collaborator instead. -/
theorem draw_pixel_bounding_box (s : Ssd1322) (coord : Int × Int) (c : Gray4) :
    (draw_pixel s coord c).bounding_box = s.bounding_box := by
  simp only [draw_pixel]
  repeat' split
  all_goals rfl

/-- `draw_iter` never modifies the driver's own `bounding_box` field. -/
theorem draw_iter_bounding_box (pixels : List ((Int × Int) × Gray4)) :
    ∀ s : Ssd1322, (draw_iter s pixels).bounding_box = s.bounding_box := by
  induction pixels with
  | nil => intro s; rfl
  | cons p ps ih =>
      intro s
      have h : draw_iter s (p :: ps) = draw_iter (draw_pixel s p.1 p.2) ps := rfl
      rw [h, ih, draw_pixel_bounding_box]

/-- The bounding-box merge on an ordered rectangle is the pointwise
min/max extension. -/
theorem boxMerge_some (a b c d x y : Nat) (hab : a ≤ b) (hcd : c ≤ d) :
    boxMerge (some ((a, b), (c, d))) x y =
      some ((min a (x / 2), max b (x / 2)), (min c y, max d y)) := by
  simp only [boxMerge]
  split_ifs <;> simp only [Option.some.injEq, Prod.mk.injEq] <;> omega

/-- Folding the merge from an ordered rectangle computes the brute-force
min/max of the rectangle and every touched point. -/
theorem touches_foldl (ts : List (Nat × Nat)) :
    ∀ a b c d : Nat, a ≤ b → c ≤ d →
      ts.foldl (fun bb t => boxMerge bb t.1 t.2) (some ((a, b), (c, d))) =
        some ((ts.foldl (fun m t => min m (t.1 / 2)) a,
               ts.foldl (fun m t => max m (t.1 / 2)) b),
              (ts.foldl (fun m t => min m t.2) c,
               ts.foldl (fun m t => max m t.2) d)) := by
  induction ts with
  | nil => intro a b c d _ _; simp
  | cons t ts ih =>
      intro a b c d hab hcd
      simp only [List.foldl_cons]
      rw [boxMerge_some a b c d t.1 t.2 hab hcd]
      exact ih (min a (t.1 / 2)) (max b (t.1 / 2)) (min c t.2) (max d t.2)
        (by omega) (by omega)

/-- When every transport call succeeds, the row loop sends one window per
row, in row order. -/
theorem sendRows_all_ok (buffer : List Nat) (col0 num : Nat) :
    ∀ (k i : Nat) (tx : Nat × List Event),
      sendRows (fun _ => true) buffer col0 num i k tx =
        Except.ok (tx.1 + k,
          tx.2 ++ (List.range k).map (fun j => Event.data (rowSlice buffer col0 num (i + j)))) := by
  intro k
  induction k with
  | zero => intro i tx; simp [sendRows]
  | succ n ih =>
      intro i tx
      rw [sendRows]
      simp only [send, if_pos]
      rw [ih (i + 1)]
      have harith : ∀ j : Nat, i + 1 + j = i + (j + 1) := by omega
      simp only [List.range_succ_eq_map, List.map_cons, List.map_map, Function.comp, harith]
      simp [List.append_assoc]
      omega

/-- `flush` leaves the driver state untouched on every path. -/
theorem flush_state_eq (okAt : Nat → Bool) (s : Ssd1322) : (flush okAt s).state = s := by
  unfold flush
  repeat' split
  all_goals rfl

/-- `flush_changed` leaves the driver state untouched on every path: the
source never assigns `buffer` or `bounding_box` inside it, in particular it
never resets the tracker. -/
theorem flush_changed_state_eq (okAt : Nat → Bool) (s : Ssd1322) :
    (flush_changed okAt s).state = s := by
  unfold flush_changed
  repeat' split
  all_goals try rfl
  all_goals dsimp only
  all_goals repeat' split
  all_goals rfl

/-- `clear` preserves well-formedness and so does `Ssd1322.new`. -/
theorem WF_new (d : List (Nat × Nat)) : WF (Ssd1322.new d) := by
  constructor
  · simp [Ssd1322.new]
  · intro b hb
    rw [List.eq_of_mem_replicate hb]
    omega

/-- Reading back a just-written list index. -/
theorem getD_set_self (l : List Nat) (n a : Nat) (h : n < l.length) :
    (l.set n a).getD n 0 = a := by
  rw [List.getD_eq_getElem?_getD, List.getElem?_set_self]
  · rfl
  · simpa using h

/-- A defaulted read at a valid index is an element of the list. -/
theorem getD_mem (l : List Nat) (n : Nat) (h : n < l.length) : l.getD n 0 ∈ l := by
  rw [List.getD_eq_getElem?_getD, List.getElem?_eq_getElem h]
  exact List.getElem_mem h

/-- The framebuffer index of an in-bounds pixel is inside the buffer. -/
theorem index_lt (x y : Nat) (hx : x < 256) (hy : y < 64) :
    x / 2 + y * (DISPLAY_WIDTH / 2) < BUFFER_SIZE := by
  simp only [DISPLAY_WIDTH, DISPLAY_HEIGHT, BUFFER_SIZE]
  omega

/-- The byte at the target index after one in-bounds pixel write is the
candidate byte (whether or not the write was skipped as a no-change). -/
theorem draw_pixel_getD (s : Ssd1322) (x y : Nat) (c : Gray4)
    (hWF : WF s) (hx : x < 256) (hy : y < 64) :
    (draw_pixel s ((x : Int), (y : Int)) c).buffer.getD (x / 2 + y * (DISPLAY_WIDTH / 2)) 0 =
      (if x % 2 = 0 then
        update_upper_nibble (s.buffer.getD (x / 2 + y * (DISPLAY_WIDTH / 2)) 0) c.luma
       else
        update_lower_nibble (s.buffer.getD (x / 2 + y * (DISPLAY_WIDTH / 2)) 0) c.luma) := by
  have hidx : x / 2 + y * (DISPLAY_WIDTH / 2) < s.buffer.length := by
    rw [hWF.1]; exact index_lt x y hx hy
  rw [draw_pixel_in_bounds s x y c hx hy]
  by_cases hc :
      (if x % 2 = 0 then
        update_upper_nibble (s.buffer.getD (x / 2 + y * (DISPLAY_WIDTH / 2)) 0) c.luma
       else
        update_lower_nibble (s.buffer.getD (x / 2 + y * (DISPLAY_WIDTH / 2)) 0) c.luma)
        = s.buffer.getD (x / 2 + y * (DISPLAY_WIDTH / 2)) 0
  · rw [if_pos hc, hc]
  · rw [if_neg hc]
    exact getD_set_self _ _ _ hidx

/-- Writing the same in-bounds pixel twice: the second write changes
nothing (neither the buffer nor any tracker report). -/
theorem draw_pixel_idempotent (s : Ssd1322) (x y : Nat) (c : Gray4)
    (hWF : WF s) (hx : x < 256) (hy : y < 64) :
    draw_pixel (draw_pixel s ((x : Int), (y : Int)) c) ((x : Int), (y : Int)) c
      = draw_pixel s ((x : Int), (y : Int)) c := by
  have hidx : x / 2 + y * (DISPLAY_WIDTH / 2) < s.buffer.length := by
    rw [hWF.1]; exact index_lt x y hx hy
  have hcur : s.buffer.getD (x / 2 + y * (DISPLAY_WIDTH / 2)) 0 < 256 :=
    hWF.2 _ (getD_mem _ _ hidx)
  have h1 := nibble_facts _ hcur c.luma c.luma_lt
  rw [draw_pixel_in_bounds (draw_pixel s ((x : Int), (y : Int)) c) x y c hx hy]
  rw [draw_pixel_getD s x y c hWF hx hy]
  rcases Nat.mod_two_eq_zero_or_one x with hp | hp
  · simp only [if_pos hp]
    have h2 := nibble_facts _ h1.2.2.2.2.1 c.luma c.luma_lt
    rw [if_pos (by omega)]
  · have hne : ¬ (x % 2 = 0) := by omega
    simp only [if_neg hne]
    have h2 := nibble_facts _ h1.2.2.2.2.2 c.luma c.luma_lt
    rw [if_pos (by omega)]

/-- Folding driver-level `update_box` touches equals folding the pure
bounding-box merge on the `bounding_box` field. -/
theorem touches_state_foldl (ts : List (Nat × Nat)) : ∀ s : Ssd1322,
    (ts.foldl (fun st t => st.update_box t.1 t.2) s).bounding_box =
      ts.foldl (fun bb t => boxMerge bb t.1 t.2) s.bounding_box := by
  induction ts with
  | nil => intro s; rfl
  | cons t ts ih =>
      intro s
      simp only [List.foldl_cons]
      rw [ih]
      rfl

/-! Claim theorems. -/

/-- Claim C3: for any sequence of `update_box` touch calls starting from the
absent state, the tracker's rectangle afterwards equals the exact minimal
axis-aligned bounding rectangle of all touched points, in byte-column units
`x / 2` and row units `y` — brute-force min/max over the touch history.  The
first touch initializes the tight rectangle `[x/2, x/2] × [y, y]` and later
touches only widen the four bounds by one-sided min/max comparison. -/
theorem C3_update_box_minimal_rectangle (t : Nat × Nat) (ts : List (Nat × Nat)) :
    touches (t :: ts) =
      some ((ts.foldl (fun m p => min m (p.1 / 2)) (t.1 / 2),
             ts.foldl (fun m p => max m (p.1 / 2)) (t.1 / 2)),
            (ts.foldl (fun m p => min m p.2) t.2,
             ts.foldl (fun m p => max m p.2) t.2)) := by
  unfold touches
  rw [touches_state_foldl]
  have h0 : (Ssd1322.new []).bounding_box = none := rfl
  rw [h0]
  simp only [List.foldl_cons]
  have h1 : boxMerge none t.1 t.2 = some ((t.1 / 2, t.1 / 2), (t.2, t.2)) := rfl
  rw [h1]
  exact touches_foldl ts (t.1 / 2) (t.1 / 2) t.2 t.2 le_rfl le_rfl

/-- Claim C4: for every in-range pixel write, the luma is packed into the
high nibble of byte `x/2 + y*(width/2)` when x is even and into the low
nibble when x is odd, the neighboring nibble of that byte is bit-for-bit
unchanged, and reading the written nibble back yields exactly the luma. -/
theorem C4_nibble_roundtrip (s : Ssd1322) (x y : Nat) (c : Gray4)
    (hWF : WF s) (hx : x < 256) (hy : y < 64) :
    (x % 2 = 0 →
      (draw_pixel s ((x : Int), (y : Int)) c).buffer.getD (x / 2 + y * (DISPLAY_WIDTH / 2)) 0 / 16
        = c.luma ∧
      (draw_pixel s ((x : Int), (y : Int)) c).buffer.getD (x / 2 + y * (DISPLAY_WIDTH / 2)) 0 % 16
        = s.buffer.getD (x / 2 + y * (DISPLAY_WIDTH / 2)) 0 % 16)
    ∧ (x % 2 = 1 →
      (draw_pixel s ((x : Int), (y : Int)) c).buffer.getD (x / 2 + y * (DISPLAY_WIDTH / 2)) 0 % 16
        = c.luma ∧
      (draw_pixel s ((x : Int), (y : Int)) c).buffer.getD (x / 2 + y * (DISPLAY_WIDTH / 2)) 0 / 16
        = s.buffer.getD (x / 2 + y * (DISPLAY_WIDTH / 2)) 0 / 16) := by
  have hidx : x / 2 + y * (DISPLAY_WIDTH / 2) < s.buffer.length := by
    rw [hWF.1]; exact index_lt x y hx hy
  have hcur : s.buffer.getD (x / 2 + y * (DISPLAY_WIDTH / 2)) 0 < 256 :=
    hWF.2 _ (getD_mem _ _ hidx)
  have hfacts := nibble_facts _ hcur c.luma c.luma_lt
  have hgd := draw_pixel_getD s x y c hWF hx hy
  constructor
  · intro hpar
    rw [hgd, if_pos hpar]
    exact ⟨hfacts.1, hfacts.2.1⟩
  · intro hpar
    rw [hgd, if_neg (by omega)]
    exact ⟨hfacts.2.2.1, hfacts.2.2.2.1⟩

/-- Claim C4 witness: drawing luma 7 at the even pixel (2, 0) of a fresh
driver puts 7 in the high nibble of byte 1 and leaves its low nibble 0. -/
theorem C4_nibble_roundtrip_witness :
    WF (Ssd1322.new []) ∧ (2 : Nat) < 256 ∧ (0 : Nat) < 64 ∧
    ((2 % 2 = 0 →
      (draw_pixel (Ssd1322.new []) ((2 : Int), (0 : Int)) (Gray4.new 7)).buffer.getD
          (2 / 2 + 0 * (DISPLAY_WIDTH / 2)) 0 / 16 = (Gray4.new 7).luma ∧
      (draw_pixel (Ssd1322.new []) ((2 : Int), (0 : Int)) (Gray4.new 7)).buffer.getD
          (2 / 2 + 0 * (DISPLAY_WIDTH / 2)) 0 % 16
        = (Ssd1322.new []).buffer.getD (2 / 2 + 0 * (DISPLAY_WIDTH / 2)) 0 % 16)
    ∧ (2 % 2 = 1 →
      (draw_pixel (Ssd1322.new []) ((2 : Int), (0 : Int)) (Gray4.new 7)).buffer.getD
          (2 / 2 + 0 * (DISPLAY_WIDTH / 2)) 0 % 16 = (Gray4.new 7).luma ∧
      (draw_pixel (Ssd1322.new []) ((2 : Int), (0 : Int)) (Gray4.new 7)).buffer.getD
          (2 / 2 + 0 * (DISPLAY_WIDTH / 2)) 0 / 16
        = (Ssd1322.new []).buffer.getD (2 / 2 + 0 * (DISPLAY_WIDTH / 2)) 0 / 16)) :=
  ⟨WF_new [], by decide, by decide,
   C4_nibble_roundtrip (Ssd1322.new []) 2 0 (Gray4.new 7) (WF_new []) (by decide) (by decide)⟩

/-- Claim C6: an in-bounds pixel write whose candidate byte equals the
current byte performs no buffer write and no tracker report (the state is
unchanged), and writing the same pixel twice is idempotent: the second
write leaves the framebuffer, the driver tracker and the touch reports
exactly as after the first. -/
theorem C6_identical_write_no_dirty (s : Ssd1322) (x y : Nat) (c : Gray4)
    (hWF : WF s) (hx : x < 256) (hy : y < 64) :
    ((if x % 2 = 0 then
        update_upper_nibble (s.buffer.getD (x / 2 + y * (DISPLAY_WIDTH / 2)) 0) c.luma
      else
        update_lower_nibble (s.buffer.getD (x / 2 + y * (DISPLAY_WIDTH / 2)) 0) c.luma)
        = s.buffer.getD (x / 2 + y * (DISPLAY_WIDTH / 2)) 0 →
      draw_pixel s ((x : Int), (y : Int)) c = s)
    ∧ draw_pixel (draw_pixel s ((x : Int), (y : Int)) c) ((x : Int), (y : Int)) c
        = draw_pixel s ((x : Int), (y : Int)) c := by
  constructor
  · intro hc
    rw [draw_pixel_in_bounds s x y c hx hy, if_pos hc]
  · exact draw_pixel_idempotent s x y c hWF hx hy

/-- Claim C6 witness: writing luma 5 at (0, 0) twice on a fresh driver
equals writing it once. -/
theorem C6_identical_write_no_dirty_witness :
    WF (Ssd1322.new []) ∧
    draw_pixel (draw_pixel (Ssd1322.new []) ((0 : Int), (0 : Int)) (Gray4.new 5))
        ((0 : Int), (0 : Int)) (Gray4.new 5)
      = draw_pixel (Ssd1322.new []) ((0 : Int), (0 : Int)) (Gray4.new 5) :=
  ⟨WF_new [],
   (C6_identical_write_no_dirty (Ssd1322.new []) 0 0 (Gray4.new 5) (WF_new [])
      (by decide) (by decide)).2⟩

/-- Claim C7: a pixel write at an out-of-bounds coordinate (x ≥ 256,
y ≥ 64, or negative, within the i32 range) is a complete no-op: the whole
driver state — framebuffer, tracker, and touch reports — is unchanged, and
`draw_iter` (whose error type is `Infallible`) returns no error. -/
theorem C7_out_of_bounds_noop (s : Ssd1322) (px py : Int) (c : Gray4)
    (hxlo : -(2 ^ 31) ≤ px) (hxhi : px < 2 ^ 31)
    (hylo : -(2 ^ 31) ≤ py) (hyhi : py < 2 ^ 31)
    (h : 256 ≤ px ∨ 64 ≤ py ∨ px < 0 ∨ py < 0) :
    draw_pixel s (px, py) c = s ∧ draw_iter s [((px, py), c)] = s := by
  have hguard : ¬(i32_as_usize px ≤ 255 ∧ i32_as_usize py ≤ 63) := by
    unfold i32_as_usize
    omega
  have h1 : draw_pixel s (px, py) c = s := draw_pixel_out_of_bounds s (px, py) c hguard
  exact ⟨h1, h1⟩

/-- Claim C7 witness: drawing at (256, 0) on the 256-wide surface changes
nothing. -/
theorem C7_out_of_bounds_noop_witness :
    draw_iter (Ssd1322.new []) [(((256 : Int), (0 : Int)), Gray4.new 9)] = Ssd1322.new [] :=
  (C7_out_of_bounds_noop (Ssd1322.new []) 256 0 (Gray4.new 9)
    (by decide) (by decide) (by decide) (by decide) (Or.inl (by decide))).2

/-- Claim C8: `clear(luma)` overwrites every byte of the framebuffer with
`(luma << 4) | luma`, whose high and low nibbles both read back as the
luma; `clear 15` makes every byte `0xFF`; the dirty-rectangle tracker (and
the touch-report log) is left unchanged; and `clear` is total, returning no
error. -/
theorem C8_clear_fills_and_keeps_tracker (s : Ssd1322) (c : Gray4) :
    (s.clear c).buffer = List.replicate s.buffer.length ((c.luma <<< 4) ||| c.luma)
    ∧ ((c.luma <<< 4) ||| c.luma) / 16 = c.luma
    ∧ ((c.luma <<< 4) ||| c.luma) % 16 = c.luma
    ∧ (s.clear (Gray4.new 15)).buffer = List.replicate s.buffer.length 0xFF
    ∧ (s.clear c).bounding_box = s.bounding_box
    ∧ (s.clear c).display = s.display := by
  have hdec : ∀ l, l < 16 → ((l <<< 4) ||| l) / 16 = l ∧ ((l <<< 4) ||| l) % 16 = l := by
    decide
  refine ⟨rfl, (hdec c.luma c.luma_lt).1, (hdec c.luma c.luma_lt).2, ?_, rfl, rfl⟩
  show List.replicate s.buffer.length (((Gray4.new 15).luma <<< 4) ||| (Gray4.new 15).luma)
      = List.replicate s.buffer.length 0xFF
  rw [show (((Gray4.new 15).luma <<< 4) ||| (Gray4.new 15).luma) = 0xFF from by decide]

/-- The bounding-box merge preserves well-formedness of the rectangle, and
establishes it when the rectangle was absent. -/
theorem boxMerge_bbWF (bb : Option ((Nat × Nat) × (Nat × Nat))) (x y : Nat)
    (h : bbWF bb) : bbWF (boxMerge bb x y) := by
  match bb with
  | none => exact ⟨le_rfl, le_rfl⟩
  | some ((a, b), (c, d)) =>
      simp only [bbWF] at h
      simp only [boxMerge, bbWF]
      split_ifs <;> refine ⟨?_, ?_⟩ <;> simp <;> omega

/-- Claim C9: `flush` leaves the driver state unchanged (no rollback); when
every transport call succeeds it sends exactly the full-extent column
command, the full-extent row command, `WriteRAM`, and the entire buffer as
one payload, in that order; and when the first failing transport call is
the k-th, it stops there — exactly the first k events were sent — and
propagates the failure. -/
theorem C9_flush_full_trace (okAt : Nat → Bool) (s : Ssd1322) :
    (flush okAt s).state = s
    ∧ ((∀ n, okAt n = true) → flush okAt s = ⟨true, fullFlushTrace s, s⟩)
    ∧ (∀ k, k < 4 → okAt k = false → (∀ j, j < k → okAt j = true) →
        flush okAt s = ⟨false, (fullFlushTrace s).take k, s⟩) := by
  refine ⟨flush_state_eq okAt s, ?_, ?_⟩
  · intro hall
    simp [flush, send, hall, fullFlushTrace]
  · intro k hk hfail hpre
    interval_cases k
    · simp [flush, send, hfail, fullFlushTrace]
    · simp [flush, send, hfail, hpre 0 (by omega), fullFlushTrace]
    · simp [flush, send, hfail, hpre 0 (by omega), hpre 1 (by omega), fullFlushTrace]
    · simp [flush, send, hfail, hpre 0 (by omega), hpre 1 (by omega), hpre 2 (by omega),
        fullFlushTrace]

/-- Claim C9 witness: with a transport that fails on its third call, `flush`
of a fresh driver sends exactly the two addressing commands, reports
failure, and leaves the state unchanged. -/
theorem C9_flush_full_trace_witness :
    flush (fun n => decide (n < 2)) (Ssd1322.new []) =
      ⟨false, (fullFlushTrace (Ssd1322.new [])).take 2, Ssd1322.new []⟩ :=
  (C9_flush_full_trace (fun n => decide (n < 2)) (Ssd1322.new [])).2.2 2
    (by decide) (by decide) (by decide)

/-- Claim C10: the rectangle-ordering invariant `col_min ≤ col_max ∧
row_min ≤ row_max` holds for the fresh driver (vacuously, tracker absent),
is established by the first `update_box` call, is preserved by every
further `update_box`, and is untouched by `clear`, `flush`, `flush_changed`
and `draw_iter`; consequently the `flush_changed` length computation
`col_max - col_min + 1` does not underflow and the row iteration range is
non-empty. -/
theorem C10_bounding_box_invariant (bb : Option ((Nat × Nat) × (Nat × Nat)))
    (x y : Nat) (s : Ssd1322) (c : Gray4) (okAt : Nat → Bool)
    (ps : List ((Int × Int) × Gray4)) :
    bbWF (Ssd1322.new []).bounding_box
    ∧ bbWF (boxMerge none x y)
    ∧ (bbWF bb → bbWF (boxMerge bb x y))
    ∧ (bbWF s.bounding_box → bbWF ((s.update_box x y).bounding_box))
    ∧ (s.clear c).bounding_box = s.bounding_box
    ∧ (flush okAt s).state.bounding_box = s.bounding_box
    ∧ (flush_changed okAt s).state.bounding_box = s.bounding_box
    ∧ (bbWF s.bounding_box → bbWF (draw_iter s ps).bounding_box)
    ∧ (∀ a b r0 r1 : Nat, bbWF (some ((a, b), (r0, r1))) →
        1 ≤ b - a + 1 ∧ b - a + 1 = b + 1 - a ∧ 0 < r1 + 1 - r0) := by
  refine ⟨trivial, boxMerge_bbWF none x y trivial, boxMerge_bbWF bb x y, ?_, rfl, ?_, ?_, ?_, ?_⟩
  · intro h
    exact boxMerge_bbWF s.bounding_box x y h
  · rw [flush_state_eq]
  · rw [flush_changed_state_eq]
  · intro h
    rw [draw_iter_bounding_box]
    exact h
  · intro a b r0 r1 h
    simp only [bbWF] at h
    omega

/-- Claim C10 witness: a concrete merge preserves the ordering invariant
and a concrete `clear` leaves the tracker as it was. -/
theorem C10_bounding_box_invariant_witness :
    bbWF (boxMerge (some ((1, 3), (2, 5))) 9 7)
    ∧ (dirtyZero.clear (Gray4.new 4)).bounding_box = dirtyZero.bounding_box := by
  have h := C10_bounding_box_invariant (some ((1, 3), (2, 5))) 9 7 dirtyZero (Gray4.new 4)
    (fun _ => true) []
  exact ⟨h.2.2.1 ⟨by decide, by decide⟩, h.2.2.2.2.1⟩

/-- Claim C1 (code bug): `flush_changed` never resets the tracker.  With a
tracker holding the origin rectangle and a transport that always succeeds,
the call fully succeeds, yet the rectangle is still present afterwards, and
a second `flush_changed` with no intervening writes re-sends the three
commands and the row payload instead of being a no-op. -/
theorem C1_flush_changed_never_resets :
    (flush_changed (fun _ => true) dirtyZero).ok = true
    ∧ (flush_changed (fun _ => true) dirtyZero).state.bounding_box = some ((0, 0), (0, 0))
    ∧ (flush_changed (fun _ => true) ((flush_changed (fun _ => true) dirtyZero).state)).trace =
        [Event.cmd (Command.SetColumnAddress 0x1C 0x1C),
         Event.cmd (Command.SetRowAddress 0 0),
         Event.cmd Command.WriteRAM,
         Event.data [0]] :=
  ⟨rfl, rfl, rfl⟩

/-- Claim C2 (code bug): an in-bounds pixel write that mutates a byte
reports its touch to the `display` transport collaborator (line 180 calls
`self.display.update_box`), not to the driver's own tracker: after drawing
(0, 0) with luma 5 on a fresh driver, byte 0 was mutated to `0x50` and the
touch sits in the transport's log, yet the driver's `bounding_box` — the
rectangle `flush_changed` reads — is still absent, so `flush_changed`
performs no transport calls at all. -/
theorem C2_touch_reported_to_transport_not_tracker :
    (draw_iter (Ssd1322.new []) [(((0 : Int), (0 : Int)), Gray4.new 5)]).buffer.getD 0 0 = 0x50
    ∧ (draw_iter (Ssd1322.new []) [(((0 : Int), (0 : Int)), Gray4.new 5)]).display = [(0, 0)]
    ∧ (draw_iter (Ssd1322.new []) [(((0 : Int), (0 : Int)), Gray4.new 5)]).bounding_box = none
    ∧ (flush_changed (fun _ => true)
        (draw_iter (Ssd1322.new []) [(((0 : Int), (0 : Int)), Gray4.new 5)])).trace = []
    ∧ (flush_changed (fun _ => true)
        (draw_iter (Ssd1322.new []) [(((0 : Int), (0 : Int)), Gray4.new 5)])).ok = true :=
  ⟨rfl, rfl, rfl, rfl, rfl⟩

/-- Claim C5 counterexample: in the spec's scenario — draw (0, 0) luma 5
then (1, 0) luma 3 on a fresh driver — byte 0 does become `0x53`, but a
fully successful `flush_changed` then sends no transport event at all
(trace `[]`), not the claimed addressing commands and single payload
`[0x53]`: the draws never populated the driver's tracker. -/
theorem C5_scenario_counterexample :
    (draw_iter (Ssd1322.new []) scenarioPixels).buffer.getD 0 0 = 0x53
    ∧ (flush_changed (fun _ => true) (draw_iter (Ssd1322.new []) scenarioPixels)).trace = [] :=
  ⟨rfl, rfl⟩

/-- Claim C5 (amended): when the tracker holds `[c0, c1] × [r0, r1]` and
every transport call succeeds, `flush_changed` issues the column-addressing
command translated by the device scale/offset (`col / 2 + 0x1C`), the row
command verbatim, `WriteRAM`, and then, for each row r from r0 to r1 in
order, exactly the contiguous buffer slice of length `c1 - c0 + 1` starting
at byte offset `c0 + r * (width / 2)` as one payload; the state is returned
unchanged. -/
theorem C5_flush_changed_sends_window (s : Ssd1322) (c0 c1 r0 r1 : Nat)
    (h : s.bounding_box = some ((c0, c1), (r0, r1))) :
    flush_changed (fun _ => true) s =
      ⟨true,
       [Event.cmd (Command.SetColumnAddress (c0 / 2 + 0x1C) (c1 / 2 + 0x1C)),
        Event.cmd (Command.SetRowAddress r0 r1),
        Event.cmd Command.WriteRAM]
       ++ (List.range (r1 + 1 - r0)).map
           (fun j => Event.data (rowSlice s.buffer c0 (c1 - c0 + 1) (r0 + j))),
       s⟩ := by
  unfold flush_changed
  rw [h]
  dsimp only
  simp only [send, if_pos]
  rw [sendRows_all_ok]
  simp

/-- Claim C5 witness: after the scenario draws and manually reporting the
two touches to the driver's tracker, `flush_changed` sends the addressing
commands for column 0 and row 0 and the single payload `[0x53]`. -/
theorem C5_flush_changed_sends_window_witness :
    (flush_changed (fun _ => true)
        (((draw_iter (Ssd1322.new []) scenarioPixels).update_box 0 0).update_box 1 0)).trace =
      [Event.cmd (Command.SetColumnAddress 0x1C 0x1C),
       Event.cmd (Command.SetRowAddress 0 0),
       Event.cmd Command.WriteRAM,
       Event.data [0x53]] := by
  have h := C5_flush_changed_sends_window
    (((draw_iter (Ssd1322.new []) scenarioPixels).update_box 0 0).update_box 1 0)
    0 0 0 0 rfl
  rw [h]
  rfl
